import Mathlib

/-!
Shallow embedding of the Memora capture-and-reconciliation core.

Part 1 models the Capture Coordinator, translated from
src/src/components/JournalInput.tsx: the recording / transcription flags,
the journal text buffer, the transcription completion callback and the
submit handler.

Part 2 models the Insight Synchronizer, translated from the
InsightsDisplay component (embedded in src/README.md): the four record
collections, the fetch queries, toggle / edit / delete operations and the
edit cursor.

Remote calls are represented explicitly: every operation returns, next to
the updated state, the list of toasts it raised and the list of remote
operations it issued, so that claims about scoping, ordering and error
surfacing are statable.
-/

namespace Memora

/-- A toast notification, as raised by the toast / sonner calls in the source. -/
inductive Toast where
  | success (msg : String)
  | error (msg : String)
deriving DecidableEq

/-- React state of the JournalInput component (content, processing,
isRecording, isTranscribing useState hooks), plus one ghost flag
pendingTranscription recording that the reader onloadend callback has been
registered and its transcription-service call has not yet resolved.  The
ghost flag is not a React state variable; it represents the in-flight
asynchronous callback in the control flow of transcribeAudio. -/
structure CState where
  content : String
  processing : Bool
  isRecording : Bool
  isTranscribing : Bool
  pendingTranscription : Bool
deriving DecidableEq

/-- Initial state of JournalInput: all useState hooks start at the empty
string or false. -/
def initCState : CState :=
  { content := "", processing := false, isRecording := false,
    isTranscribing := false, pendingTranscription := false }

/-- Typing into the textarea: onChange sets content to the new value. -/
def typeContent (v : String) (s : CState) : CState := { s with content := v }

/-- startRecording, success path: microphone granted, recorder started,
setIsRecording(true), success toast. -/
def startRecordingOk (s : CState) : CState × List Toast :=
  ({ s with isRecording := true }, [Toast.success "Recording started"])

/-- startRecording, failure path: getUserMedia rejected; the catch block
raises an error toast and the state is unchanged. -/
def startRecordingFail (s : CState) : CState × List Toast :=
  (s, [Toast.error "Failed to start recording. Please check microphone permissions."])

/-- stopRecording: only acts when a recorder exists and isRecording is
true; stops the recorder (which later fires onstop, i.e. transcribeAudioStart)
and sets isRecording to false. -/
def stopRecording (s : CState) : CState :=
  if s.isRecording then { s with isRecording := false } else s

/-- The synchronous part of transcribeAudio: setIsTranscribing(true), then
the try block creates a FileReader, starts readAsDataURL and registers the
async onloadend callback (modelled by pendingTranscription := true), and
the finally block runs setIsTranscribing(false) immediately afterwards --
before the onloadend callback ever fires, because the try block only
registers the callback. -/
def transcribeAudioStart (s : CState) : CState :=
  let s1 := { s with isTranscribing := true }
  let s2 := { s1 with pendingTranscription := true }
  { s2 with isTranscribing := false }

/-- Result of one capture-side asynchronous step: the new state, the toasts
raised, and the unhandled promise rejections produced. -/
structure CaptureStep where
  state : CState
  toasts : List Toast
  unhandled : List String
deriving DecidableEq

/-- The async onloadend callback of transcribeAudio, fired after the
FileReader finishes: it awaits the transcribe-audio function call.  The
response is Except.error e (the invoke returned an error, rethrown by
`if (error) throw error`), or Except.ok none (no data / no text field), or
Except.ok (some t) (data.text = t).  The throw happens inside the async
callback, after transcribeAudio and its try/catch/finally have already
returned, so the rejection is unhandled and no toast is raised.  On a
truthy data.text the text is appended to the buffer with a blank-line
separator when the buffer is non-empty. -/
def transcribeOnLoadEnd (resp : Except String (Option String)) (s : CState) : CaptureStep :=
  let s0 := { s with pendingTranscription := false }
  match resp with
  | Except.error e => { state := s0, toasts := [], unhandled := [e] }
  | Except.ok none => { state := s0, toasts := [], unhandled := [] }
  | Except.ok (some t) =>
      if t = "" then { state := s0, toasts := [], unhandled := [] }
      else
        { state := { s0 with content := if s.content = "" then t else s.content ++ "\n\n" ++ t },
          toasts := [Toast.success "Transcription complete!"],
          unhandled := [] }

/-- JavaScript content.trim(): strip leading and trailing whitespace.
Written over the character list so that it reduces in the kernel. -/
def jsTrim (s : String) : String :=
  String.mk (((s.data.dropWhile Char.isWhitespace).reverse.dropWhile Char.isWhitespace).reverse)

/-- Remote calls made by handleSubmit: the auth lookup and the
process-journal function invocation with its request body. -/
inductive RemoteOp where
  | getUser
  | invokeExtraction (journalContent : String) (userId : String)
deriving DecidableEq

/-- Result of a full run of handleSubmit: final state, toasts raised,
remote calls issued in order, and how many times onProcessed was called. -/
structure SubmitStep where
  state : CState
  toasts : List Toast
  calls : List RemoteOp
  processedSignals : Nat
deriving DecidableEq

/-- handleSubmit, run to completion.  The parameters are the auth context
(getUser result) and the outcome of the process-journal invocation.  The
guard `!content.trim()` returns before any remote call with an error toast.
Otherwise setProcessing(true) runs, getUser is consulted, and on a missing
user an error toast is raised (finally resets processing).  On an invoke
error the catch raises error.message (or the fallback message); on success
the buffer is cleared, a success toast raised and onProcessed called.  In
every completed branch the finally block has reset processing to false. -/
def handleSubmit (user : Option String) (resp : Except String Unit) (s : CState) : SubmitStep :=
  if jsTrim s.content = "" then
    { state := s,
      toasts := [Toast.error "Please write something in your journal"],
      calls := [], processedSignals := 0 }
  else
    match user with
    | none =>
        { state := { s with processing := false },
          toasts := [Toast.error "Please sign in to continue"],
          calls := [RemoteOp.getUser], processedSignals := 0 }
    | some uid =>
        match resp with
        | Except.error e =>
            { state := { s with processing := false },
              toasts := [Toast.error (if e = "" then "Failed to process journal entry" else e)],
              calls := [RemoteOp.getUser, RemoteOp.invokeExtraction s.content uid],
              processedSignals := 0 }
        | Except.ok _ =>
            { state := { s with content := "", processing := false },
              toasts := [Toast.success "Journal processed! Your insights are ready."],
              calls := [RemoteOp.getUser, RemoteOp.invokeExtraction s.content uid],
              processedSignals := 1 }

/-- The disabled condition of the submit button:
disabled={processing || isRecording || isTranscribing}. -/
def submitDisabled (s : CState) : Bool :=
  s.processing || s.isRecording || s.isTranscribing

/-! ## Insight Synchronizer (InsightsDisplay component) -/

/-- A row of the tasks table, as selected by the component. -/
structure TaskRow where
  id : String
  title : String
  completed : Bool
  priority : String
  user_id : String
  created_at : Nat
deriving DecidableEq

/-- A row of the calendar_events table. -/
structure EventRow where
  id : String
  title : String
  event_date : Option Nat
  event_time : Option String
  user_id : String
  created_at : Nat
deriving DecidableEq

/-- A row of the notes table. -/
structure NoteRow where
  id : String
  content : String
  user_id : String
  created_at : Nat
deriving DecidableEq

/-- A row of the health_mentions table. -/
structure HealthRow where
  id : String
  content : String
  user_id : String
  created_at : Nat
deriving DecidableEq

/-- The remote store: the four collections the component reads and writes. -/
structure Database where
  tasks : List TaskRow
  calendar_events : List EventRow
  notes : List NoteRow
  health_mentions : List HealthRow
deriving DecidableEq

/-- A select query as built by the component: table, user_id filter,
order field, direction, and optional limit. -/
structure Query where
  table : String
  userFilter : String
  orderField : String
  ascending : Bool
  limit : Option Nat
deriving DecidableEq

/-- The value written by an update call. -/
inductive FieldVal where
  | b (v : Bool)
  | s (v : String)
deriving DecidableEq

/-- Remote store operations issued by the Insight Synchronizer: a select
query, an update of one field filtered by id, or a delete filtered by id.
Updates and deletes carry only an id filter -- the source adds no user_id
filter on mutations. -/
inductive SyncOp where
  | query (q : Query)
  | updateRow (table : String) (field : String) (v : FieldVal) (idFilter : String)
  | deleteRow (table : String) (idFilter : String)
deriving DecidableEq

/-- React state of the InsightsDisplay component: the four fetched lists
and the edit cursor (editingId, editingType, editValue). -/
structure DState where
  tasks : List TaskRow
  events : List EventRow
  notes : List NoteRow
  health : List HealthRow
  editingId : Option String
  editingType : Option String
  editValue : String
deriving DecidableEq

/-- Initial state: empty lists, no cursor. -/
def initDState : DState :=
  { tasks := [], events := [], notes := [], health := [],
    editingId := none, editingType := none, editValue := "" }

/-- Ordering used for order("created_at", desc) on tasks. -/
def taskLe (a b : TaskRow) : Prop := b.created_at ≤ a.created_at

instance : DecidableRel taskLe := fun a b => inferInstanceAs (Decidable (b.created_at ≤ a.created_at))

instance : IsTotal TaskRow taskLe := ⟨fun a b => Nat.le_total b.created_at a.created_at⟩

instance : IsTrans TaskRow taskLe := ⟨fun _ _ _ h1 h2 => Nat.le_trans h2 h1⟩

/-- Ordering on nullable dates: ascending, null rows last (the default
null ordering of an ascending order clause). -/
def optDateLe (a b : Option Nat) : Prop :=
  match a, b with
  | some x, some y => x ≤ y
  | some _, none => True
  | none, some _ => False
  | none, none => True

instance (a b : Option Nat) : Decidable (optDateLe a b) :=
  match a, b with
  | some x, some y => inferInstanceAs (Decidable (x ≤ y))
  | some _, none => inferInstanceAs (Decidable True)
  | none, some _ => inferInstanceAs (Decidable False)
  | none, none => inferInstanceAs (Decidable True)

/-- Ordering used for order("event_date", asc) on events. -/
def eventLe (a b : EventRow) : Prop := optDateLe a.event_date b.event_date

instance : DecidableRel eventLe := fun a b => inferInstanceAs (Decidable (optDateLe a.event_date b.event_date))

instance : IsTotal EventRow eventLe := by
  constructor
  intro a b
  show optDateLe a.event_date b.event_date ∨ optDateLe b.event_date a.event_date
  rcases a.event_date with _ | x <;> rcases b.event_date with _ | y <;> simp [optDateLe]
  exact Nat.le_total x y

instance : IsTrans EventRow eventLe := by
  constructor
  intro a b c h1 h2
  show optDateLe a.event_date c.event_date
  rcases ha : a.event_date with _ | x <;> rcases hb : b.event_date with _ | y <;>
    rcases hc : c.event_date with _ | z <;>
    simp_all [eventLe, optDateLe]
  exact Nat.le_trans h1 h2

/-- Ordering used for order("created_at", desc) on notes. -/
def noteLe (a b : NoteRow) : Prop := b.created_at ≤ a.created_at

instance : DecidableRel noteLe := fun a b => inferInstanceAs (Decidable (b.created_at ≤ a.created_at))

instance : IsTotal NoteRow noteLe := ⟨fun a b => Nat.le_total b.created_at a.created_at⟩

instance : IsTrans NoteRow noteLe := ⟨fun _ _ _ h1 h2 => Nat.le_trans h2 h1⟩

/-- Ordering used for order("created_at", desc) on health mentions. -/
def healthLe (a b : HealthRow) : Prop := b.created_at ≤ a.created_at

instance : DecidableRel healthLe := fun a b => inferInstanceAs (Decidable (b.created_at ≤ a.created_at))

instance : IsTotal HealthRow healthLe := ⟨fun a b => Nat.le_total b.created_at a.created_at⟩

instance : IsTrans HealthRow healthLe := ⟨fun _ _ _ h1 h2 => Nat.le_trans h2 h1⟩

/-- Embedding of: from("tasks").select().eq("user_id", u).order("created_at", desc). -/
def fetchTasks (db : Database) (u : String) : List TaskRow :=
  List.insertionSort taskLe (db.tasks.filter (fun r => r.user_id == u))

/-- Embedding of: from("calendar_events").select().eq("user_id", u).order("event_date", asc). -/
def fetchEvents (db : Database) (u : String) : List EventRow :=
  List.insertionSort eventLe (db.calendar_events.filter (fun r => r.user_id == u))

/-- Embedding of: from("notes").select().eq("user_id", u).order("created_at", desc).limit(10). -/
def fetchNotes (db : Database) (u : String) : List NoteRow :=
  (List.insertionSort noteLe (db.notes.filter (fun r => r.user_id == u))).take 10

/-- Embedding of: from("health_mentions").select().eq("user_id", u).order("created_at", desc).limit(10). -/
def fetchHealth (db : Database) (u : String) : List HealthRow :=
  (List.insertionSort healthLe (db.health_mentions.filter (fun r => r.user_id == u))).take 10

/-- The four select queries issued by one fetchData call, in source order. -/
def fetchQueries (u : String) : List SyncOp :=
  [ SyncOp.query { table := "tasks", userFilter := u, orderField := "created_at", ascending := false, limit := none },
    SyncOp.query { table := "calendar_events", userFilter := u, orderField := "event_date", ascending := true, limit := none },
    SyncOp.query { table := "notes", userFilter := u, orderField := "created_at", ascending := false, limit := some 10 },
    SyncOp.query { table := "health_mentions", userFilter := u, orderField := "created_at", ascending := false, limit := some 10 } ]

/-- fetchData: getUser, abort silently when no user, otherwise run the four
queries and store each result.  Returns the new component state and the
store operations issued.  (The component raises no toast in fetchData.) -/
def fetchData (user : Option String) (db : Database) (st : DState) : DState × List SyncOp :=
  match user with
  | none => (st, [])
  | some u =>
      ({ st with tasks := fetchTasks db u, events := fetchEvents db u,
                 notes := fetchNotes db u, health := fetchHealth db u },
       fetchQueries u)

/-- Result of one Insight Synchronizer operation: the new remote store, the
new component state, the store operations issued in order, and the toasts
raised. -/
structure SyncStep where
  db : Database
  st : DState
  ops : List SyncOp
  toasts : List Toast
deriving DecidableEq

/-- toggleTask: from("tasks").update with completed := !completed, filtered
by eq("id", taskId), then fetchData.  The completed argument is the
displayed value of the clicked task; user is the auth context consulted by
fetchData. -/
def toggleTask (taskId : String) (completed : Bool) (user : Option String)
    (db : Database) (st : DState) : SyncStep :=
  let db1 := { db with tasks := db.tasks.map (fun r => if r.id == taskId then { r with completed := !completed } else r) }
  let f := fetchData user db1 st
  { db := db1, st := f.1,
    ops := SyncOp.updateRow "tasks" "completed" (FieldVal.b (!completed)) taskId :: f.2,
    toasts := [] }

/-- startEdit: set the edit cursor to (id, type) and seed the edit buffer
with the current value.  No remote call is made. -/
def startEdit (id ty currentValue : String) (st : DState) : DState :=
  { st with editingId := some id, editingType := some ty, editValue := currentValue }

/-- cancelEdit: clear cursor and edit buffer.  No remote call is made. -/
def cancelEdit (st : DState) : DState :=
  { st with editingId := none, editingType := none, editValue := "" }

/-- The update attempted by saveEdit: dispatch on the editingType string to
the matching table and mutable field (title for tasks and calendar_events,
content for notes and health_mentions), filtered by id only.  An
unrecognised type string issues no call and leaves the store unchanged
(in the source, error stays undefined in that case). -/
def saveEditAttempt (db : Database) (eid v ty : String) : Database × List SyncOp :=
  if ty == "tasks" then
    ({ db with tasks := db.tasks.map (fun r => if r.id == eid then { r with title := v } else r) },
     [SyncOp.updateRow "tasks" "title" (FieldVal.s v) eid])
  else if ty == "calendar_events" then
    ({ db with calendar_events := db.calendar_events.map (fun r => if r.id == eid then { r with title := v } else r) },
     [SyncOp.updateRow "calendar_events" "title" (FieldVal.s v) eid])
  else if ty == "notes" then
    ({ db with notes := db.notes.map (fun r => if r.id == eid then { r with content := v } else r) },
     [SyncOp.updateRow "notes" "content" (FieldVal.s v) eid])
  else if ty == "health_mentions" then
    ({ db with health_mentions := db.health_mentions.map (fun r => if r.id == eid then { r with content := v } else r) },
     [SyncOp.updateRow "health_mentions" "content" (FieldVal.s v) eid])
  else (db, [])

/-- saveEdit.  The guard on a missing editingId or editingType exits at
once (null, or the falsy empty string).  updErr tells whether the
attempted update call returned an error: then the catch raises the error
toast and nothing else happens (a failed update leaves the store as it
was).  Otherwise the success toast is raised, cancelEdit clears the
cursor, and fetchData reloads the four collections. -/
def saveEdit (updErr : Bool) (user : Option String) (db : Database) (st : DState) : SyncStep :=
  match st.editingId, st.editingType with
  | some eid, some ety =>
      if eid == "" || ety == "" then { db := db, st := st, ops := [], toasts := [] }
      else
        let a := saveEditAttempt db eid st.editValue ety
        if updErr && !a.2.isEmpty then
          { db := db, st := st, ops := a.2, toasts := [Toast.error "Failed to update"] }
        else
          let f := fetchData user a.1 (cancelEdit st)
          { db := a.1, st := f.1, ops := a.2 ++ f.2,
            toasts := [Toast.success "Updated successfully"] }
  | _, _ => { db := db, st := st, ops := [], toasts := [] }

/-- The delete attempted by deleteItem: dispatch on the type string to the
matching table, filtered by id only. -/
def deleteItemAttempt (db : Database) (id ty : String) : Database × List SyncOp :=
  if ty == "tasks" then
    ({ db with tasks := db.tasks.filter (fun r => !(r.id == id)) }, [SyncOp.deleteRow "tasks" id])
  else if ty == "calendar_events" then
    ({ db with calendar_events := db.calendar_events.filter (fun r => !(r.id == id)) }, [SyncOp.deleteRow "calendar_events" id])
  else if ty == "notes" then
    ({ db with notes := db.notes.filter (fun r => !(r.id == id)) }, [SyncOp.deleteRow "notes" id])
  else if ty == "health_mentions" then
    ({ db with health_mentions := db.health_mentions.filter (fun r => !(r.id == id)) }, [SyncOp.deleteRow "health_mentions" id])
  else (db, [])

/-- deleteItem.  delErr tells whether the delete call returned an error:
then the catch raises the error toast and all state is unchanged.
Otherwise the success toast is raised and fetchData reloads the four
collections.  The type argument is one of the four table names (a union
type in the source). -/
def deleteItem (delErr : Bool) (user : Option String) (id ty : String)
    (db : Database) (st : DState) : SyncStep :=
  let a := deleteItemAttempt db id ty
  if delErr && !a.2.isEmpty then
    { db := db, st := st, ops := a.2, toasts := [Toast.error "Failed to delete"] }
  else
    let f := fetchData user a.1 st
    { db := a.1, st := f.1, ops := a.2 ++ f.2,
      toasts := [Toast.success "Deleted successfully"] }

/-- The edit-cursor events of the component. -/
inductive UIEvent where
  | beginEdit (id ty v : String)
  | cancel
  | save (updErr : Bool)

/-- One edit-cursor step of the component, over the pair of remote store
and component state.  beginEdit and cancel are the startEdit and
cancelEdit handlers, which touch no remote state and issue no call. -/
def editStep (user : Option String) (e : UIEvent) (db : Database) (st : DState) : SyncStep :=
  match e with
  | UIEvent.beginEdit id ty v => { db := db, st := startEdit id ty v st, ops := [], toasts := [] }
  | UIEvent.cancel => { db := db, st := cancelEdit st, ops := [], toasts := [] }
  | UIEvent.save updErr => saveEdit updErr user db st

/-- Count the full reloads recorded in an operation log: every fetchData
run issues exactly one query on the tasks table. -/
def reloadCount (l : List SyncOp) : Nat :=
  l.countP (fun op => match op with
    | SyncOp.query q => q.table == "tasks"
    | _ => false)

/-! ## Scoping predicates -/

/-- Rows of other users are untouched between two versions of a
collection: every row of another user survives unchanged, and no row of
another user appears changed or new. -/
def othersUntouched {α : Type} (uid : α → String) (u : String) (old new : List α) : Prop :=
  (∀ r ∈ old, uid r ≠ u → r ∈ new) ∧ (∀ r ∈ new, uid r ≠ u → r ∈ old)

instance {α : Type} [DecidableEq α] (uid : α → String) (u : String) (old new : List α) :
    Decidable (othersUntouched uid u old new) :=
  inferInstanceAs (Decidable ((∀ r ∈ old, uid r ≠ u → r ∈ new) ∧ (∀ r ∈ new, uid r ≠ u → r ∈ old)))

/-- A store mutation stayed inside the scope of user u: in all four
collections, rows of other users are untouched. -/
def mutationUserScoped (u : String) (db db2 : Database) : Prop :=
  othersUntouched TaskRow.user_id u db.tasks db2.tasks ∧
  othersUntouched EventRow.user_id u db.calendar_events db2.calendar_events ∧
  othersUntouched NoteRow.user_id u db.notes db2.notes ∧
  othersUntouched HealthRow.user_id u db.health_mentions db2.health_mentions

instance (u : String) (db db2 : Database) : Decidable (mutationUserScoped u db db2) :=
  inferInstanceAs (Decidable (_ ∧ _ ∧ _ ∧ _))

/-- The id-uniqueness invariant of the data model: ids are unique within
each entity kind. -/
def idsNodup (db : Database) : Prop :=
  (db.tasks.map TaskRow.id).Nodup ∧ (db.calendar_events.map EventRow.id).Nodup ∧
  (db.notes.map NoteRow.id).Nodup ∧ (db.health_mentions.map HealthRow.id).Nodup

instance (db : Database) : Decidable (idsNodup db) :=
  inferInstanceAs (Decidable (_ ∧ _ ∧ _ ∧ _))

/-- The pair (ty, id) refers to a record of user u: when ty names one of
the four tables, that table holds a row with this id owned by u.  This is
how the component invokes its mutating operations -- the id is always the
id of a rendered record, and each panel renders the result of a fetch
filtered by eq("user_id", u). -/
def ownedRef (db : Database) (u id ty : String) : Prop :=
  (ty = "tasks" → ∃ r ∈ db.tasks, r.id = id ∧ r.user_id = u) ∧
  (ty = "calendar_events" → ∃ r ∈ db.calendar_events, r.id = id ∧ r.user_id = u) ∧
  (ty = "notes" → ∃ r ∈ db.notes, r.id = id ∧ r.user_id = u) ∧
  (ty = "health_mentions" → ∃ r ∈ db.health_mentions, r.id = id ∧ r.user_id = u)

instance (db : Database) (u id ty : String) : Decidable (ownedRef db u id ty) :=
  inferInstanceAs (Decidable (_ ∧ _ ∧ _ ∧ _))

/-- One of the four entity kind tags of the closed dispatch. -/
def isEntityKind (ty : String) : Prop :=
  ty = "tasks" ∨ ty = "calendar_events" ∨ ty = "notes" ∨ ty = "health_mentions"

instance (ty : String) : Decidable (isEntityKind ty) :=
  inferInstanceAs (Decidable (_ ∨ _ ∨ _ ∨ _))

/-! ## Concrete data used by the witnesses -/

/-- A task of user u1. -/
def exTask1 : TaskRow :=
  { id := "t1", title := "buy milk", completed := false, priority := "high",
    user_id := "u1", created_at := 2 }

/-- A task of user u2. -/
def exTask2 : TaskRow :=
  { id := "t2", title := "call mom", completed := true, priority := "low",
    user_id := "u2", created_at := 1 }

/-- An event of user u1. -/
def exEvent1 : EventRow :=
  { id := "e1", title := "meeting", event_date := some 20, event_time := some "14:00",
    user_id := "u1", created_at := 3 }

/-- An event of user u2. -/
def exEvent2 : EventRow :=
  { id := "e2", title := "dentist", event_date := none, event_time := none,
    user_id := "u2", created_at := 4 }

/-- A note of user u1. -/
def exNote1 : NoteRow :=
  { id := "n1", content := "felt energized", user_id := "u1", created_at := 5 }

/-- A note of user u2. -/
def exNote2 : NoteRow :=
  { id := "n2", content := "quiet day", user_id := "u2", created_at := 6 }

/-- A health mention of user u1. -/
def exHealth1 : HealthRow :=
  { id := "h1", content := "went for a run", user_id := "u1", created_at := 7 }

/-- A health mention of user u2. -/
def exHealth2 : HealthRow :=
  { id := "h2", content := "slept well", user_id := "u2", created_at := 8 }

/-- A small remote store with records of two users. -/
def exDb : Database :=
  { tasks := [exTask1, exTask2], calendar_events := [exEvent1, exEvent2],
    notes := [exNote1, exNote2], health_mentions := [exHealth1, exHealth2] }

/-- exTask1 after one completion toggle. -/
def exTask1Toggled : TaskRow := { exTask1 with completed := true }

/-- Capture state reached by typing, recording and stopping: the stop
handler has run transcribeAudioStart, so the transcription service call is
in flight. -/
def overlapScenario : CState :=
  transcribeAudioStart (stopRecording (startRecordingOk (typeContent "hi" initCState)).1)

/-! ## Helper lemmas -/

/-- fetchData never touches the edit cursor id. -/
lemma fetchData_fst_editingId (user : Option String) (db : Database) (st : DState) :
    (fetchData user db st).1.editingId = st.editingId := by
  cases user <;> rfl

/-- fetchData never touches the edit cursor type. -/
lemma fetchData_fst_editingType (user : Option String) (db : Database) (st : DState) :
    (fetchData user db st).1.editingType = st.editingType := by
  cases user <;> rfl

lemma othersUntouched_refl {α : Type} (uid : α → String) (u : String) (l : List α) :
    othersUntouched uid u l l :=
  ⟨fun _ hr _ => hr, fun _ hr _ => hr⟩

lemma mutationUserScoped_refl (u : String) (db : Database) : mutationUserScoped u db db :=
  ⟨othersUntouched_refl _ _ _, othersUntouched_refl _ _ _,
   othersUntouched_refl _ _ _, othersUntouched_refl _ _ _⟩

/-- An update filtered only by id leaves the rows of other users untouched,
provided ids are unique in the collection and the filtered id belongs to a
row of user u. -/
lemma othersUntouched_updateById {α : Type} (uid idf : α → String) (f : α → α)
    (hfu : ∀ r, uid (f r) = uid r)
    (l : List α) (u tid : String)
    (hnd : (l.map idf).Nodup) (hown : ∃ r ∈ l, idf r = tid ∧ uid r = u) :
    othersUntouched uid u l (l.map (fun r => if idf r == tid then f r else r)) := by
  obtain ⟨r0, hr0, hrid, hru⟩ := hown
  constructor
  · intro r hr hne
    have hgr : (if idf r == tid then f r else r) = r := by
      by_cases hc : idf r = tid
      · exfalso
        have hf : r = r0 := List.inj_on_of_nodup_map hnd hr hr0 (by rw [hc, hrid])
        exact hne (by rw [hf, hru])
      · simp [hc]
    have hm := List.mem_map_of_mem (fun r => if idf r == tid then f r else r) hr
    simpa only [hgr] using hm
  · intro r2 hr2 hne
    obtain ⟨r, hr, hfr⟩ := List.mem_map.1 hr2
    by_cases hc : idf r = tid
    · exfalso
      have hf : r = r0 := List.inj_on_of_nodup_map hnd hr hr0 (by rw [hc, hrid])
      have h2 : r2 = f r := by rw [← hfr]; simp [hc]
      exact hne (by rw [h2, hfu, hf, hru])
    · have h2 : r2 = r := by rw [← hfr]; simp [hc]
      rwa [h2]

/-- A delete filtered only by id leaves the rows of other users untouched,
provided ids are unique in the collection and the filtered id belongs to a
row of user u. -/
lemma othersUntouched_deleteById {α : Type} (uid idf : α → String) (l : List α) (u tid : String)
    (hnd : (l.map idf).Nodup) (hown : ∃ r ∈ l, idf r = tid ∧ uid r = u) :
    othersUntouched uid u l (l.filter (fun r => !(idf r == tid))) := by
  obtain ⟨r0, hr0, hrid, hru⟩ := hown
  constructor
  · intro r hr hne
    refine List.mem_filter.2 ⟨hr, ?_⟩
    by_cases hc : idf r = tid
    · exfalso
      have hf : r = r0 := List.inj_on_of_nodup_map hnd hr hr0 (by rw [hc, hrid])
      exact hne (by rw [hf, hru])
    · simp [hc]
  · intro r hr _
    exact (List.mem_filter.1 hr).1

/-- saveEdit with a missing cursor returns at the guard: nothing happens. -/
lemma saveEdit_no_cursor (e : Bool) (user : Option String) (db : Database) (st : DState)
    (h : st.editingId = none ∨ st.editingType = none) :
    saveEdit e user db st = { db := db, st := st, ops := [], toasts := [] } := by
  rcases h with h | h
  · simp [saveEdit, h]
  · rcases hid : st.editingId with _ | eid
    · simp [saveEdit, hid]
    · simp [saveEdit, hid, h]

/-! ## Claims -/

/-- C2: when the transcription service call fails, the journal text buffer
is unchanged, isTranscribing is false and no automatic retry occurs -- but
no user-visible error is surfaced: the throw happens inside the async
onloadend callback, outside the try/catch of transcribeAudio, so the
rejection is unhandled and the toasts list stays empty, contradicting the
claim that an error is surfaced. -/
theorem transcription_failure_not_surfaced :
    (transcribeOnLoadEnd (Except.error "service down")
        (transcribeAudioStart (typeContent "hello" initCState))).toasts = [] ∧
    (transcribeOnLoadEnd (Except.error "service down")
        (transcribeAudioStart (typeContent "hello" initCState))).state.content = "hello" ∧
    (transcribeOnLoadEnd (Except.error "service down")
        (transcribeAudioStart (typeContent "hello" initCState))).state.isTranscribing = false ∧
    (transcribeOnLoadEnd (Except.error "service down")
        (transcribeAudioStart (typeContent "hello" initCState))).unhandled = ["service down"] ∧
    (transcribeOnLoadEnd (Except.error "service down")
        (transcribeAudioStart (typeContent "hello" initCState))).state.pendingTranscription = false := by
  decide

/-- C3: the submit button is disabled exactly while processing, isRecording
or isTranscribing is true; but after a recording is stopped the finally
block of transcribeAudio has already reset isTranscribing, so in the state
where the transcription service call is still in flight the submit button
is enabled and a submit issues an extraction request, contradicting the
claim that no submit can overlap an in-flight transcription. -/
theorem submit_enabled_during_inflight_transcription :
    overlapScenario.pendingTranscription = true ∧
    submitDisabled overlapScenario = false ∧
    (handleSubmit (some "u1") (Except.ok ()) overlapScenario).calls =
      [RemoteOp.getUser, RemoteOp.invokeExtraction "hi" "u1"] := by
  decide

/-- C4: a submit with non-blank text and a signed-in user clears the text
buffer when the extraction call succeeds, and leaves the text buffer
exactly at its pre-submit value when the call fails. -/
theorem submit_buffer_atomic (s : CState) (uid : String) (h : ¬ jsTrim s.content = "") :
    (handleSubmit (some uid) (Except.ok ()) s).state.content = "" ∧
    (∀ e, (handleSubmit (some uid) (Except.error e) s).state.content = s.content) := by
  constructor
  · simp [handleSubmit, h]
  · intro e
    simp [handleSubmit, h]

/-- Witness for C4 at a concrete state. -/
theorem submit_buffer_atomic_witness :
    (¬ jsTrim "Buy milk" = "") ∧
    (handleSubmit (some "u1") (Except.ok ()) (typeContent "Buy milk" initCState)).state.content = "" ∧
    (handleSubmit (some "u1") (Except.error "boom") (typeContent "Buy milk" initCState)).state.content = "Buy milk" :=
  ⟨by decide,
   (submit_buffer_atomic (typeContent "Buy milk" initCState) "u1" (by decide)).1,
   (submit_buffer_atomic (typeContent "Buy milk" initCState) "u1" (by decide)).2 "boom"⟩

/-- C5 counterexample: a successful transcription that returns the empty
string while the buffer holds "A" leaves the buffer at "A", not at
"A" followed by a blank line as the claim requires, because the source
guards the append with the truthiness of data.text. -/
theorem transcription_empty_text_counterexample :
    (transcribeOnLoadEnd (Except.ok (some "")) (typeContent "A" initCState)).state.content = "A" ∧
    ("A" : String) ≠ "A" ++ "\n\n" ++ "" := by
  decide

/-- C5 amended: for every successful transcription returning a non-empty
text t, the buffer becomes the old content, a blank-line separator and t
when the buffer was non-empty, and exactly t when it was empty; a
successful transcription returning the empty string leaves the buffer
unchanged. -/
theorem transcription_append_amended (s : CState) (t : String) (ht : ¬ t = "") :
    (transcribeOnLoadEnd (Except.ok (some t)) s).state.content =
      (if s.content = "" then t else s.content ++ "\n\n" ++ t) ∧
    (transcribeOnLoadEnd (Except.ok (some "")) s).state.content = s.content := by
  refine ⟨?_, rfl⟩
  simp [transcribeOnLoadEnd, ht]

/-- Witness for the amended C5 at concrete inputs. -/
theorem transcription_append_amended_witness :
    (¬ ("B" : String) = "") ∧
    (transcribeOnLoadEnd (Except.ok (some "B")) (typeContent "A" initCState)).state.content = "A\n\nB" :=
  ⟨by decide, by
    rw [(transcription_append_amended (typeContent "A" initCState) "B" (by decide)).1]
    decide⟩

/-- C6: a submit whose text is empty or whitespace-only raises the
validation error toast, issues no remote call at all (not even the auth
lookup) and changes nothing else. -/
theorem empty_submit_no_remote_call (s : CState) (user : Option String) (resp : Except String Unit)
    (h : jsTrim s.content = "") :
    handleSubmit user resp s =
      { state := s, toasts := [Toast.error "Please write something in your journal"],
        calls := [], processedSignals := 0 } := by
  simp [handleSubmit, h]

/-- Witness for C6 at a whitespace-only buffer. -/
theorem empty_submit_no_remote_call_witness :
    jsTrim "   " = "" ∧
    handleSubmit (some "u1") (Except.ok ()) (typeContent "   " initCState) =
      { state := typeContent "   " initCState,
        toasts := [Toast.error "Please write something in your journal"],
        calls := [], processedSignals := 0 } :=
  ⟨by decide, empty_submit_no_remote_call (typeContent "   " initCState) (some "u1") (Except.ok ()) (by decide)⟩

/-- C10: invoking saveEdit while editingId or editingType is null is a
total no-op: no remote call, no toast, store and component state
unchanged. -/
theorem save_without_cursor_noop (e : Bool) (user : Option String) (db : Database) (st : DState)
    (h : st.editingId = none ∨ st.editingType = none) :
    saveEdit e user db st = { db := db, st := st, ops := [], toasts := [] } :=
  saveEdit_no_cursor e user db st h

/-- Witness for C10 with an empty cursor. -/
theorem save_without_cursor_noop_witness :
    (initDState.editingId = none ∨ initDState.editingType = none) ∧
    saveEdit false (some "u1") exDb initDState =
      { db := exDb, st := initDState, ops := [], toasts := [] } :=
  ⟨Or.inl rfl, save_without_cursor_noop false (some "u1") exDb initDState (Or.inl rfl)⟩

/-- C7: the edit cursor obeys the state machine None / Editing(kind, id,
buffer).  Begin edit always moves to Editing for the new pair, replacing
any prior buffer, with no remote call and no remote change; cancel edit
moves to None with no remote effect; save edit with a live cursor moves to
None on success and, on a failed update, stays Editing with the same
cursor and buffer and leaves the store unchanged. -/
theorem edit_cursor_state_machine (user : Option String) :
    (∀ db st id ty v,
       (editStep user (UIEvent.beginEdit id ty v) db st).st.editingId = some id ∧
       (editStep user (UIEvent.beginEdit id ty v) db st).st.editingType = some ty ∧
       (editStep user (UIEvent.beginEdit id ty v) db st).st.editValue = v ∧
       (editStep user (UIEvent.beginEdit id ty v) db st).db = db ∧
       (editStep user (UIEvent.beginEdit id ty v) db st).ops = []) ∧
    (∀ db st,
       (editStep user UIEvent.cancel db st).st.editingId = none ∧
       (editStep user UIEvent.cancel db st).st.editingType = none ∧
       (editStep user UIEvent.cancel db st).db = db ∧
       (editStep user UIEvent.cancel db st).ops = []) ∧
    (∀ db st eid ety, st.editingId = some eid → st.editingType = some ety →
       ¬ eid = "" → ¬ ety = "" →
       (editStep user (UIEvent.save false) db st).st.editingId = none ∧
       (editStep user (UIEvent.save false) db st).st.editingType = none) ∧
    (∀ db st eid ety, st.editingId = some eid → st.editingType = some ety →
       ¬ eid = "" → isEntityKind ety →
       (editStep user (UIEvent.save true) db st).st = st ∧
       (editStep user (UIEvent.save true) db st).db = db) := by
  refine ⟨fun db st id ty v => ⟨rfl, rfl, rfl, rfl, rfl⟩,
          fun db st => ⟨rfl, rfl, rfl, rfl⟩, ?_, ?_⟩
  · intro db st eid ety hid hty heid hety
    constructor
    · simp [editStep, saveEdit, hid, hty, heid, hety, fetchData_fst_editingId, cancelEdit]
    · simp [editStep, saveEdit, hid, hty, heid, hety, fetchData_fst_editingType, cancelEdit]
  · intro db st eid ety hid hty heid hk
    rcases hk with h | h | h | h <;>
      simp [editStep, saveEdit, hid, hty, heid, h, saveEditAttempt]

/-- Witness for C7: a failed save with the cursor on task t1 keeps the
cursor and the store. -/
theorem edit_cursor_state_machine_witness :
    ((startEdit "t1" "tasks" "x" initDState).editingId = some "t1") ∧
    (editStep (some "u1") (UIEvent.save true) exDb (startEdit "t1" "tasks" "x" initDState)).st =
      startEdit "t1" "tasks" "x" initDState :=
  ⟨rfl,
   ((edit_cursor_state_machine (some "u1")).2.2.2 exDb (startEdit "t1" "tasks" "x" initDState)
      "t1" "tasks" rfl rfl (by decide) (Or.inl rfl)).1⟩

/-- C1: under the data-model invariant that ids are unique within each
entity kind, and given that the component always invokes its mutating
operations with the id of a record rendered from a user-scoped fetch,
every mutating operation of the Insight Synchronizer (toggle task
completion, save edit, delete) leaves all records of other users
untouched: no call mutates a record outside the scope of the current
authenticated user. -/
theorem mutations_user_scoped (u : String) (user : Option String) (db : Database) (st : DState)
    (hnd : idsNodup db) :
    (∀ tid c, ownedRef db u tid "tasks" →
       mutationUserScoped u db (toggleTask tid c user db st).db) ∧
    (∀ st2 e, (∀ eid ety, st2.editingId = some eid → st2.editingType = some ety → ownedRef db u eid ety) →
       mutationUserScoped u db (saveEdit e user db st2).db) ∧
    (∀ id ty e, ownedRef db u id ty →
       mutationUserScoped u db (deleteItem e user id ty db st).db) := by
  obtain ⟨hndT, hndE, hndN, hndH⟩ := hnd
  have attemptSave : ∀ eid v ty, ownedRef db u eid ty →
      mutationUserScoped u db (saveEditAttempt db eid v ty).1 := by
    intro eid v ty hown
    by_cases h1 : ty = "tasks"
    · subst h1
      refine ⟨?_, othersUntouched_refl _ _ _, othersUntouched_refl _ _ _, othersUntouched_refl _ _ _⟩
      exact othersUntouched_updateById TaskRow.user_id TaskRow.id
        (fun r => { r with title := v }) (fun r => rfl) db.tasks u eid hndT (hown.1 rfl)
    · by_cases h2 : ty = "calendar_events"
      · subst h2
        refine ⟨othersUntouched_refl _ _ _, ?_, othersUntouched_refl _ _ _, othersUntouched_refl _ _ _⟩
        have : (saveEditAttempt db eid v "calendar_events").1.calendar_events =
            db.calendar_events.map (fun r => if r.id == eid then { r with title := v } else r) := rfl
        rw [this]
        exact othersUntouched_updateById EventRow.user_id EventRow.id
          (fun r => { r with title := v }) (fun r => rfl) db.calendar_events u eid hndE (hown.2.1 rfl)
      · by_cases h3 : ty = "notes"
        · subst h3
          refine ⟨othersUntouched_refl _ _ _, othersUntouched_refl _ _ _, ?_, othersUntouched_refl _ _ _⟩
          have : (saveEditAttempt db eid v "notes").1.notes =
              db.notes.map (fun r => if r.id == eid then { r with content := v } else r) := rfl
          rw [this]
          exact othersUntouched_updateById NoteRow.user_id NoteRow.id
            (fun r => { r with content := v }) (fun r => rfl) db.notes u eid hndN (hown.2.2.1 rfl)
        · by_cases h4 : ty = "health_mentions"
          · subst h4
            refine ⟨othersUntouched_refl _ _ _, othersUntouched_refl _ _ _, othersUntouched_refl _ _ _, ?_⟩
            have : (saveEditAttempt db eid v "health_mentions").1.health_mentions =
                db.health_mentions.map (fun r => if r.id == eid then { r with content := v } else r) := rfl
            rw [this]
            exact othersUntouched_updateById HealthRow.user_id HealthRow.id
              (fun r => { r with content := v }) (fun r => rfl) db.health_mentions u eid hndH (hown.2.2.2 rfl)
          · have : (saveEditAttempt db eid v ty).1 = db := by
              simp [saveEditAttempt, h1, h2, h3, h4]
            rw [this]
            exact mutationUserScoped_refl u db
  refine ⟨?_, ?_, ?_⟩
  · intro tid c hown
    refine ⟨?_, othersUntouched_refl _ _ _, othersUntouched_refl _ _ _, othersUntouched_refl _ _ _⟩
    exact othersUntouched_updateById TaskRow.user_id TaskRow.id
      (fun r => { r with completed := !c }) (fun r => rfl) db.tasks u tid hndT (hown.1 rfl)
  · intro st2 e hcur
    rcases hid : st2.editingId with _ | eid
    · rw [saveEdit_no_cursor e user db st2 (Or.inl hid)]
      exact mutationUserScoped_refl u db
    · rcases hty : st2.editingType with _ | ety
      · rw [saveEdit_no_cursor e user db st2 (Or.inr hty)]
        exact mutationUserScoped_refl u db
      · by_cases hg : (eid == "" || ety == "") = true
        · have : (saveEdit e user db st2).db = db := by
            simp only [saveEdit, hid, hty]
            rw [if_pos hg]
          rw [this]
          exact mutationUserScoped_refl u db
        · by_cases hf : (e && !(saveEditAttempt db eid st2.editValue ety).2.isEmpty) = true
          · have : (saveEdit e user db st2).db = db := by
              simp only [saveEdit, hid, hty]
              rw [if_neg hg, if_pos hf]
            rw [this]
            exact mutationUserScoped_refl u db
          · have : (saveEdit e user db st2).db = (saveEditAttempt db eid st2.editValue ety).1 := by
              simp only [saveEdit, hid, hty]
              rw [if_neg hg, if_neg hf]
            rw [this]
            exact attemptSave eid st2.editValue ety (hcur eid ety hid hty)
  · intro id ty e hown
    by_cases hf : (e && !(deleteItemAttempt db id ty).2.isEmpty) = true
    · have : (deleteItem e user id ty db st).db = db := by
        simp only [deleteItem]
        rw [if_pos hf]
      rw [this]
      exact mutationUserScoped_refl u db
    · have hdel : (deleteItem e user id ty db st).db = (deleteItemAttempt db id ty).1 := by
        simp only [deleteItem]
        rw [if_neg hf]
      rw [hdel]
      by_cases h1 : ty = "tasks"
      · subst h1
        refine ⟨?_, othersUntouched_refl _ _ _, othersUntouched_refl _ _ _, othersUntouched_refl _ _ _⟩
        exact othersUntouched_deleteById TaskRow.user_id TaskRow.id db.tasks u id hndT (hown.1 rfl)
      · by_cases h2 : ty = "calendar_events"
        · subst h2
          refine ⟨othersUntouched_refl _ _ _, ?_, othersUntouched_refl _ _ _, othersUntouched_refl _ _ _⟩
          have : (deleteItemAttempt db id "calendar_events").1.calendar_events =
              db.calendar_events.filter (fun r => !(r.id == id)) := rfl
          rw [this]
          exact othersUntouched_deleteById EventRow.user_id EventRow.id db.calendar_events u id hndE (hown.2.1 rfl)
        · by_cases h3 : ty = "notes"
          · subst h3
            refine ⟨othersUntouched_refl _ _ _, othersUntouched_refl _ _ _, ?_, othersUntouched_refl _ _ _⟩
            have : (deleteItemAttempt db id "notes").1.notes =
                db.notes.filter (fun r => !(r.id == id)) := rfl
            rw [this]
            exact othersUntouched_deleteById NoteRow.user_id NoteRow.id db.notes u id hndN (hown.2.2.1 rfl)
          · by_cases h4 : ty = "health_mentions"
            · subst h4
              refine ⟨othersUntouched_refl _ _ _, othersUntouched_refl _ _ _, othersUntouched_refl _ _ _, ?_⟩
              have : (deleteItemAttempt db id "health_mentions").1.health_mentions =
                  db.health_mentions.filter (fun r => !(r.id == id)) := rfl
              rw [this]
              exact othersUntouched_deleteById HealthRow.user_id HealthRow.id db.health_mentions u id hndH (hown.2.2.2 rfl)
            · have : (deleteItemAttempt db id ty).1 = db := by
                simp [deleteItemAttempt, h1, h2, h3, h4]
              rw [this]
              exact mutationUserScoped_refl u db

/-- C8: a load with an authenticated user u issues exactly the four
user-scoped queries, in order: tasks by created_at descending with no
limit, calendar events by event_date ascending with no limit, notes by
created_at descending limited to 10, health mentions by created_at
descending limited to 10; the resulting panels are correctly ordered,
user-scoped, and limited (with the full user collection whenever it fits
the limit).  A load without an authenticated user issues no query and
changes nothing, silently. -/
theorem load_queries_and_results (db : Database) (st : DState) (u : String) :
    (fetchData (some u) db st).2 =
      [ SyncOp.query { table := "tasks", userFilter := u, orderField := "created_at", ascending := false, limit := none },
        SyncOp.query { table := "calendar_events", userFilter := u, orderField := "event_date", ascending := true, limit := none },
        SyncOp.query { table := "notes", userFilter := u, orderField := "created_at", ascending := false, limit := some 10 },
        SyncOp.query { table := "health_mentions", userFilter := u, orderField := "created_at", ascending := false, limit := some 10 } ] ∧
    List.Sorted taskLe (fetchData (some u) db st).1.tasks ∧
    ((fetchData (some u) db st).1.tasks).Perm (db.tasks.filter (fun r => r.user_id == u)) ∧
    List.Sorted eventLe (fetchData (some u) db st).1.events ∧
    ((fetchData (some u) db st).1.events).Perm (db.calendar_events.filter (fun r => r.user_id == u)) ∧
    List.Sorted noteLe (fetchData (some u) db st).1.notes ∧
    ((fetchData (some u) db st).1.notes).length ≤ 10 ∧
    (∀ r ∈ (fetchData (some u) db st).1.notes, r.user_id = u) ∧
    ((db.notes.filter (fun r => r.user_id == u)).length ≤ 10 →
      ((fetchData (some u) db st).1.notes).Perm (db.notes.filter (fun r => r.user_id == u))) ∧
    List.Sorted healthLe (fetchData (some u) db st).1.health ∧
    ((fetchData (some u) db st).1.health).length ≤ 10 ∧
    (∀ r ∈ (fetchData (some u) db st).1.health, r.user_id = u) ∧
    ((db.health_mentions.filter (fun r => r.user_id == u)).length ≤ 10 →
      ((fetchData (some u) db st).1.health).Perm (db.health_mentions.filter (fun r => r.user_id == u))) ∧
    fetchData none db st = (st, []) := by
  refine ⟨rfl, List.sorted_insertionSort taskLe _, List.perm_insertionSort taskLe _,
          List.sorted_insertionSort eventLe _, List.perm_insertionSort eventLe _,
          (List.sorted_insertionSort noteLe _).sublist (List.take_sublist 10 _),
          List.length_take_le 10 _, ?_, ?_,
          (List.sorted_insertionSort healthLe _).sublist (List.take_sublist 10 _),
          List.length_take_le 10 _, ?_, ?_, rfl⟩
  · intro r hr
    have h1 : r ∈ List.insertionSort noteLe (db.notes.filter (fun r => r.user_id == u)) :=
      (List.take_sublist 10 _).subset hr
    have h2 : r ∈ db.notes.filter (fun r => r.user_id == u) :=
      (List.mem_insertionSort noteLe).1 h1
    exact eq_of_beq (List.mem_filter.1 h2).2
  · intro hlen
    have hlen2 : (List.insertionSort noteLe (db.notes.filter (fun r => r.user_id == u))).length ≤ 10 := by
      rw [(List.perm_insertionSort noteLe _).length_eq]
      exact hlen
    have heq : (fetchData (some u) db st).1.notes =
        List.insertionSort noteLe (db.notes.filter (fun r => r.user_id == u)) :=
      List.take_of_length_le hlen2
    rw [heq]
    exact List.perm_insertionSort noteLe _
  · intro r hr
    have h1 : r ∈ List.insertionSort healthLe (db.health_mentions.filter (fun r => r.user_id == u)) :=
      (List.take_sublist 10 _).subset hr
    have h2 : r ∈ db.health_mentions.filter (fun r => r.user_id == u) :=
      (List.mem_insertionSort healthLe).1 h1
    exact eq_of_beq (List.mem_filter.1 h2).2
  · intro hlen
    have hlen2 : (List.insertionSort healthLe (db.health_mentions.filter (fun r => r.user_id == u))).length ≤ 10 := by
      rw [(List.perm_insertionSort healthLe _).length_eq]
      exact hlen
    have heq : (fetchData (some u) db st).1.health =
        List.insertionSort healthLe (db.health_mentions.filter (fun r => r.user_id == u)) :=
      List.take_of_length_le hlen2
    rw [heq]
    exact List.perm_insertionSort healthLe _

/-- Witness for C8: with at most 10 notes of user u1, the notes panel is a
permutation of all of them. -/
theorem load_queries_and_results_witness :
    (exDb.notes.filter (fun r => r.user_id == "u1")).length ≤ 10 ∧
    ((fetchData (some "u1") exDb initDState).1.notes).Perm
      (exDb.notes.filter (fun r => r.user_id == "u1")) :=
  ⟨by decide,
   (load_queries_and_results exDb initDState "u1").2.2.2.2.2.2.2.2.1 (by decide)⟩

/-- C9: toggling the completion of a displayed task of user u and then
toggling the task displayed for the same id after the reload restores the
remote store exactly (in particular the completed flag of the task), and
the two operations issue exactly two updates and two full four-collection
reloads. -/
theorem double_toggle_restores (db : Database) (u : String) (st : DState) (t t1 : TaskRow)
    (hnd : (db.tasks.map TaskRow.id).Nodup)
    (ht : t ∈ db.tasks) (hu : t.user_id = u)
    (ht1 : t1 ∈ (toggleTask t.id t.completed (some u) db st).st.tasks)
    (hid1 : t1.id = t.id) :
    (toggleTask t1.id t1.completed (some u)
        (toggleTask t.id t.completed (some u) db st).db
        (toggleTask t.id t.completed (some u) db st).st).db = db ∧
    (toggleTask t.id t.completed (some u) db st).ops ++
      (toggleTask t1.id t1.completed (some u)
        (toggleTask t.id t.completed (some u) db st).db
        (toggleTask t.id t.completed (some u) db st).st).ops =
      SyncOp.updateRow "tasks" "completed" (FieldVal.b (!t.completed)) t.id ::
        (fetchQueries u ++
          (SyncOp.updateRow "tasks" "completed" (FieldVal.b t.completed) t1.id :: fetchQueries u)) ∧
    reloadCount ((toggleTask t.id t.completed (some u) db st).ops ++
      (toggleTask t1.id t1.completed (some u)
        (toggleTask t.id t.completed (some u) db st).db
        (toggleTask t.id t.completed (some u) db st).st).ops) = 2 := by
  have ht1filter : t1 ∈ (db.tasks.map (fun r => if r.id == t.id then { r with completed := !t.completed } else r)).filter
      (fun r => r.user_id == u) :=
    (List.mem_insertionSort taskLe).1 ht1
  obtain ⟨r1, hr1, hfr1⟩ := List.mem_map.1 (List.mem_filter.1 ht1filter).1
  have hc1 : t1.completed = !t.completed := by
    by_cases hc : r1.id = t.id
    · rw [← hfr1]
      simp [hc]
    · exfalso
      have hteq : t1 = r1 := by rw [← hfr1]; simp [hc]
      rw [hteq] at hid1
      exact hc hid1
  have hops2 : (toggleTask t1.id t1.completed (some u)
      (toggleTask t.id t.completed (some u) db st).db
      (toggleTask t.id t.completed (some u) db st).st).ops =
      SyncOp.updateRow "tasks" "completed" (FieldVal.b t.completed) t1.id :: fetchQueries u := by
    show SyncOp.updateRow "tasks" "completed" (FieldVal.b (!t1.completed)) t1.id :: fetchQueries u = _
    rw [hc1, Bool.not_not]
  refine ⟨?_, ?_, ?_⟩
  · have hmapmap : (db.tasks.map (fun r => if r.id == t.id then { r with completed := !t.completed } else r)).map
        (fun r => if r.id == t1.id then { r with completed := !t1.completed } else r) = db.tasks := by
      rw [List.map_map]
      have hcongr : ∀ r ∈ db.tasks,
          ((fun r => if r.id == t1.id then { r with completed := !t1.completed } else r) ∘
           (fun r => if r.id == t.id then { r with completed := !t.completed } else r)) r = r := by
        intro r hr
        by_cases hc : r.id = t.id
        · have hrt : r = t := List.inj_on_of_nodup_map hnd hr ht hc
          subst hrt
          simp [Function.comp, hid1, hc1, Bool.not_not]
        · simp [Function.comp, hc, hid1]
      rw [List.map_congr_left hcongr]
      exact List.map_id _
    have hsnd : (toggleTask t1.id t1.completed (some u)
        (toggleTask t.id t.completed (some u) db st).db
        (toggleTask t.id t.completed (some u) db st).st).db =
        { db with tasks := ((db.tasks.map (fun r => if r.id == t.id then { r with completed := !t.completed } else r)).map
            (fun r => if r.id == t1.id then { r with completed := !t1.completed } else r)) } := rfl
    rw [hsnd, hmapmap]
  · rw [hops2]
    rfl
  · rw [hops2]
    rfl

/-- Witness for C9: toggling task t1 of user u1 twice restores the store. -/
theorem double_toggle_restores_witness :
    ((exDb.tasks.map TaskRow.id).Nodup ∧ exTask1 ∈ exDb.tasks ∧
     exTask1Toggled ∈ (toggleTask exTask1.id exTask1.completed (some "u1") exDb initDState).st.tasks) ∧
    (toggleTask exTask1Toggled.id exTask1Toggled.completed (some "u1")
        (toggleTask exTask1.id exTask1.completed (some "u1") exDb initDState).db
        (toggleTask exTask1.id exTask1.completed (some "u1") exDb initDState).st).db = exDb :=
  ⟨⟨by decide, by decide, by decide⟩,
   (double_toggle_restores exDb "u1" initDState exTask1 exTask1Toggled
      (by decide) (by decide) (by decide) (by decide) (by decide)).1⟩

/-- Witness for C1: toggling the task of user u1 leaves the records of
user u2 untouched. -/
theorem mutations_user_scoped_witness :
    idsNodup exDb ∧ ownedRef exDb "u1" "t1" "tasks" ∧
    mutationUserScoped "u1" exDb (toggleTask "t1" false (some "u1") exDb initDState).db :=
  ⟨by decide, by decide,
   (mutations_user_scoped "u1" (some "u1") exDb initDState (by decide)).1 "t1" false (by decide)⟩

end Memora
